import Mathlib

/-!
Verification of the Maritime Hazard and Route Intelligence logic of the
Smart-Ocean-Navigation-Assistant repository.

The development shallowly embeds the decision logic of the front-end
source files:

* the Basic-model safety simplifier `simplifyBasicGPTResponse` of the AI
  chat page (unnamed part_000, lines 265-474);
* the high-risk-area aggregation pipeline of `fetchCurrentHighRiskAreas`
  in the hazard-alerts page (unnamed part_000, lines 1706-1859);
* the hazard-alert fetch and rendering of `WeatherMap.jsx`
  (`fetchHazardAlerts`, lines 221-258, and the alert panel, lines 759-815);
* the route-analysis operation and its cancellation in the route planner
  (unnamed part_001, `analyzeRoute` lines 442-573, `cancelAnalysis`
  lines 575-583);
* harbor-location validation and its fail-closed error path
  (unnamed part_001 `validateHarborLocation` lines 223-238, the map click
  handler lines 264-334, and `HarborSearch.jsx` `validateLocation`
  lines 135-150 with `handleLocationValidation` lines 198-229).

Numbers that are IEEE doubles in JavaScript are modelled as rationals;
regular-expression and substring tests on the free-text response are
modelled as boolean facts recorded per input, one field per test of the
source, so that the branch structure of the source is kept exactly.
JavaScript `Array.prototype.sort` (stable since ES2019) is modelled by a
stable insertion sort over the same comparator key.
-/

/-! ### Safety verdict simplifier (part_000, `simplifyBasicGPTResponse`) -/

/-- Icon captured by the header pattern `^(✅|⚠️|❌)\s*(SAFE|NOT SAFE|UNSAFE)\s*-\s*`
at line 413 of part_000. -/
inductive VerdictIcon where
  | iconCheck   -- ✅
  | iconWarn    -- ⚠️
  | iconCross   -- ❌
deriving DecidableEq, Repr

/-- Verdict word captured (uppercased) by the same header pattern. -/
inductive VerdictWord where
  | saysSafe     -- SAFE
  | saysNotSafe  -- NOT SAFE
  | saysUnsafe2  -- UNSAFE
deriving DecidableEq, Repr

/-- Result of the main-safety-verdict header match (line 413 of part_000). -/
structure MainVerdict where
  icon : VerdictIcon
  word : VerdictWord
deriving DecidableEq, Repr

/-- Models the JavaScript test `verdict.includes('UNSAFE')` on the captured
verdict word: only the word UNSAFE contains the substring UNSAFE
(NOT SAFE does not). -/
def wordIncludesUnsafeTxt : VerdictWord → Bool
  | .saysUnsafe2 => true
  | _ => false

/-- Models the JavaScript test `verdict.includes('NOT SAFE')` on the captured
verdict word. -/
def wordIncludesNotSafeTxt : VerdictWord → Bool
  | .saysNotSafe => true
  | _ => false

/-- Boolean facts about one response string, one field per regular-expression
or substring test performed by `simplifyBasicGPTResponse` (part_000,
lines 267-474).  Each field records whether the corresponding test of the
source succeeds on the response. -/
structure BasicResponseFacts where
  /-- Lines 279-295: the weather extraction matched and produced essential
  weather lines, so that branch returns. -/
  weatherExtract : Bool
  /-- Lines 298-317: the route extraction matched and found a distance or a
  route description, so that branch returns. -/
  routeExtract : Bool
  /-- Line 320: the response contains CURRENT GLOBAL DISASTERS, EARTHQUAKES,
  STORMS or FLOODS, so the disaster-list branch returns. -/
  disasterListHeader : Bool
  /-- Line 396: the country-safety guard, `(?:safe|safety).*?(?:to go|travel|visit)`
  or `Risk Level:` or `INTELLIGENT SAFETY ANALYSIS`. -/
  safetyQueryGuard : Bool
  /-- Line 399: capture of `AFFECTING DISASTERS.*?\((\d+)\s+total\)`; `none`
  when the pattern does not match, otherwise the parsed count. -/
  affectingDisasters : Option Nat
  /-- Line 401: `NOT RECOMMENDED|avoid travel|do not recommend|...` matched. -/
  explicitlyUnsafeTxt : Bool
  /-- Line 413: the leading icon / verdict header, when it matched. -/
  mainVerdictHeader : Option MainVerdict
  /-- Line 430: `Risk Level:\s*HIGH` matched. -/
  riskLevelHigh : Bool
  /-- Line 431: `Risk Level:\s*MEDIUM` matched. -/
  riskLevelMedium : Bool
  /-- Line 432: `Risk Level:\s*LOW` matched. -/
  riskLevelLow : Bool
  /-- Line 438: `Earthquake|Storm|Typhoon|Tsunami|Flood|Hurricane` matched. -/
  disasterKeywordsBody : Bool
  /-- Line 451: the response mentions an earthquake together with a magnitude. -/
  earthquakeWithMagnitude : Bool
  /-- Line 454: `storm|typhoon|hurricane|cyclone` matched. -/
  stormKeyword : Bool
  /-- Line 454: the response contains the text `no active storm`. -/
  noActiveStormTxt : Bool
  /-- Line 457: `flood|tsunami` matched. -/
  floodKeyword : Bool
  /-- Line 457: the response contains the text `no flood`. -/
  noFloodTxt : Bool
  /-- Lines 462-464: a positive safety indicator matched. -/
  positiveSafetyTxt : Bool
deriving DecidableEq, Repr

/-- Structured form of the verdict strings returned by the country-safety
branch of `simplifyBasicGPTResponse`; `renderVerdict` gives the exact
source string of each constructor. -/
inductive Verdict where
  /-- Line 405: active-disaster override, carrying the parsed count. -/
  | unsafeDisasterCount (n : Nat)
  /-- Line 409. -/
  | unsafeTravelNotRecommended
  /-- Line 421. -/
  | unsafeTravelToLocation
  /-- Line 423. -/
  | notSafeExerciseCaution
  /-- Lines 425, 444 and 465. -/
  | safeLowRisk
  /-- Line 435. -/
  | unsafeHighRisk
  /-- Line 440. -/
  | notSafeMediumHazards
  /-- Line 442. -/
  | safeMediumCaution
  /-- Line 452. -/
  | unsafeEarthquake
  /-- Line 455. -/
  | unsafeStorm
  /-- Line 458. -/
  | notSafeFlood
deriving DecidableEq, Repr

/-- Exact return strings of the country-safety branch of
`simplifyBasicGPTResponse` (part_000, lines 398-469). -/
def renderVerdict : Verdict → String
  | .unsafeDisasterCount n =>
      "❌ UNSAFE - " ++ toString n ++ " active disaster(s) affecting this location"
  | .unsafeTravelNotRecommended => "❌ UNSAFE - Travel not recommended"
  | .unsafeTravelToLocation => "❌ UNSAFE - Travel to this location"
  | .notSafeExerciseCaution => "⚠️ NOT SAFE - Exercise caution"
  | .safeLowRisk => "✅ SAFE - Low Risk for Travel"
  | .unsafeHighRisk => "❌ UNSAFE - High Risk for Travel"
  | .notSafeMediumHazards => "⚠️ NOT SAFE - Medium risk with active hazards"
  | .safeMediumCaution => "⚠️ SAFE - Medium Risk (Exercise Caution)"
  | .unsafeEarthquake => "❌ UNSAFE - Active earthquake reported"
  | .unsafeStorm => "❌ UNSAFE - Active storm/typhoon reported"
  | .notSafeFlood => "⚠️ NOT SAFE - Active flood/water hazard reported"

/-- Splits a character list at spaces, keeping the accumulated token. -/
def splitSpaceAux : List Char → List Char → List (List Char)
  | [], acc => [acc.reverse]
  | c :: cs, acc =>
    if c = ' ' then acc.reverse :: splitSpaceAux cs []
    else splitSpaceAux cs (c :: acc)

/-- Space-separated tokens of a string. -/
def spaceTokens (s : String) : List String :=
  (splitSpaceAux s.data []).map (fun cs => String.mk cs)

/-- Leading icon token of a rendered verdict (the text before the first
space). -/
def verdictIconTok (s : String) : String := (spaceTokens s).getD 0 ("")

/-- Label word of a rendered verdict: the token right after the icon
(`SAFE`, `NOT` or `UNSAFE`). -/
def verdictLabelTok (s : String) : String := (spaceTokens s).getD 1 ("")

/-- Possible returns of `simplifyBasicGPTResponse`.  The three extraction
branches and the advanced-model passthrough return reformatted free text
that the claims never inspect, so they are kept abstract; the
country-safety branch returns a `Verdict` whose rendering is exact. -/
inductive BasicReply where
  /-- Lines 269-276: advanced model, response passed through. -/
  | advancedOut
  /-- Lines 279-295: reformatted weather block. -/
  | weatherOut
  /-- Lines 298-317: reformatted route block. -/
  | routeOut
  /-- Lines 320-393: reformatted global-disaster list. -/
  | disasterListOut
  /-- Lines 398-466: a country-safety verdict string. -/
  | verdictOut (v : Verdict)
  /-- Line 469: safety assessment unclear, original response attached. -/
  | unclearOut
  /-- Line 473: no pattern matched, original response returned. -/
  | originalOut
deriving DecidableEq, Repr

/-- Shallow embedding of `simplifyBasicGPTResponse` (part_000,
lines 267-474).  `modelBasic` is true when `modelUsed` is the basic model;
`r` records the outcome of every text test the source performs on the
response. -/
def simplifyBasicGPTResponse (modelBasic : Bool) (r : BasicResponseFacts) : BasicReply :=
  if !modelBasic then .advancedOut
  else if r.weatherExtract then .weatherOut
  else if r.routeExtract then .routeOut
  else if r.disasterListHeader then .disasterListOut
  else if r.safetyQueryGuard then
    -- line 400: `const disasterCount = hasActiveDisasters ? parseInt(...) : 0`
    let disasterCount := match r.affectingDisasters with
      | some n => n
      | none => 0
    if disasterCount > 0 then .verdictOut (.unsafeDisasterCount disasterCount)
    else if r.explicitlyUnsafeTxt then .verdictOut .unsafeTravelNotRecommended
    else match r.mainVerdictHeader with
      | some mv =>
        if mv.icon = .iconCross ∨ wordIncludesUnsafeTxt mv.word then
          .verdictOut .unsafeTravelToLocation
        else if mv.icon = .iconWarn ∨ wordIncludesNotSafeTxt mv.word then
          .verdictOut .notSafeExerciseCaution
        else .verdictOut .safeLowRisk
      | none =>
        if r.riskLevelHigh then .verdictOut .unsafeHighRisk
        else if r.riskLevelMedium then
          if r.disasterKeywordsBody then .verdictOut .notSafeMediumHazards
          else .verdictOut .safeMediumCaution
        else if r.riskLevelLow then .verdictOut .safeLowRisk
        else if r.earthquakeWithMagnitude then .verdictOut .unsafeEarthquake
        else if r.stormKeyword && !r.noActiveStormTxt then .verdictOut .unsafeStorm
        else if r.floodKeyword && !r.noFloodTxt then .verdictOut .notSafeFlood
        else if r.positiveSafetyTxt then .verdictOut .safeLowRisk
        else .unclearOut
  else .originalOut

/-! ### High-risk-area aggregation (part_000, `fetchCurrentHighRiskAreas`) -/

/-- One high-risk-area record as built by `fetchCurrentHighRiskAreas`
(part_000, lines 1744-1752 for current-location records and the
`high_risk_areas` payload for global ones).  Latitude and longitude are
rationals standing for the JavaScript numbers. -/
structure Area where
  name : String
  lat : ℚ
  lon : ℚ
  display_name : String
  severity : String
  description : String
  source : String
deriving DecidableEq, Repr

/-- Proximity test of the duplicate filter (part_000, lines 1807-1809):
`Math.abs(a.lat - area.lat) < 0.5 && Math.abs(a.lon - area.lon) < 0.5`. -/
def closeTo (a b : Area) : Bool :=
  decide (|a.lat - b.lat| < (1 : ℚ)/2) && decide (|a.lon - b.lon| < (1 : ℚ)/2)

/-- Duplicate removal of lines 1806-1810: keep an element exactly when its
index equals the index found by `findIndex` of the first element close to
it, searching the whole array. -/
def dedupAreas (l : List Area) : List Area :=
  ((l.enum.filter (fun p => l.findIdx (fun a => closeTo a p.snd) == p.fst)).map Prod.snd)

/-- Severity lookup table of line 1814:
`{ 'EXTREME': 0, 'SEVERE': 1, 'MODERATE': 2, 'MINOR': 3 }`. -/
def severityOrder (s : String) : Option Nat :=
  if s = "EXTREME" then some 0
  else if s = "SEVERE" then some 1
  else if s = "MODERATE" then some 2
  else if s = "MINOR" then some 3
  else none

/-- Models the JavaScript expression `x || d` for `x` the table lookup:
`undefined` and the number `0` are both falsy, so they yield the
default `d`. -/
def jsOrNat (x : Option Nat) (d : Nat) : Nat :=
  match x with
  | some (k + 1) => k + 1
  | _ => d

/-- Comparator key of line 1815: `severityOrder[a.severity] || 99`.  Note
that the lookup for EXTREME is the number 0, which is falsy in
JavaScript, so EXTREME gets key 99 exactly like an unknown severity. -/
def rankArea (a : Area) : Nat := jsOrNat (severityOrder a.severity) 99

/-- Stable insertion of one element into a list sorted ascending by
`rankArea`: walk past strictly smaller keys and stop at the first key
greater than or equal, so earlier elements win ties. -/
def insertByRank (x : Area) : List Area → List Area
  | [] => [x]
  | y :: ys => if rankArea y < rankArea x then y :: insertByRank x ys else x :: y :: ys

/-- Models `uniqueAreas.sort((a, b) => (severityOrder[a.severity] || 99) -
(severityOrder[b.severity] || 99))` of lines 1813-1816.
`Array.prototype.sort` is stable (ES2019) and a stable sort is fully
determined by its comparator key, so a stable insertion sort by
`rankArea` is an exact model. -/
def sortAreas (l : List Area) : List Area := l.foldr insertByRank []

/-- Lines 1806-1819 of part_000: duplicate removal, severity sort, then
`slice(0, 15)`. -/
def pipelineAreas (l : List Area) : List Area := (sortAreas (dedupAreas l)).take 15

/-- Lines 1803-1819: the current-location records are prepended to the
global records (`[...currentLocationHighRisk, ...globalHighRiskAreas]`)
and the combined list flows through the shared pipeline. -/
def aggregateHighRiskAreas (currentLocationHighRisk globalHighRiskAreas : List Area) :
    List Area :=
  pipelineAreas (currentLocationHighRisk ++ globalHighRiskAreas)

/-- Source relabelling used to state source-insensitivity: every event keeps all
its fields except `source`. -/
def relabelSources (g : Area → String) (l : List Area) : List Area :=
  l.map (fun a => { a with source := g a })

/-- Erases the source attribution, for comparing events up to source. -/
def scrubSource (a : Area) : Area := { a with source := "" }

/-! ### Hazard alert fetch and panel (WeatherMap.jsx) -/

/-- One alert of the `top_alerts` payload consumed by `fetchHazardAlerts`
(WeatherMap.jsx, lines 235-245) and rendered by the alert panel. -/
structure QuickAlert where
  event : String
  severity : String
  description : String
  advice : Option String
  source : String
deriving DecidableEq, Repr

/-- Toasts issued by `fetchHazardAlerts`. -/
inductive WMToast where
  /-- Line 244: `⚠️ N severe alert(s) found for this location`. -/
  | severeFound (n : Nat)
  /-- Line 250: `Please login to view hazard alerts.`. -/
  | loginToView
  /-- Line 252: the 403 detail text. -/
  | forbiddenDetail (detail : String)
deriving DecidableEq, Repr

/-- Component state touched by `fetchHazardAlerts`. -/
structure WMHazardState where
  hazardAlerts : List QuickAlert
  alertsLoading : Bool
  lastToast : Option WMToast
deriving DecidableEq, Repr

/-- Outcome of the `/api/hazard-alerts/alerts/quick` request. -/
inductive QuickFetchOutcome where
  /-- Request succeeded; the list is `response.data.top_alerts || []`. -/
  | ok (topAlerts : List QuickAlert)
  /-- Request rejected with status 401. -/
  | http401
  /-- Request rejected with status 403, with optional `detail`. -/
  | http403 (detail : Option String)
  /-- Any other failure: network error, timeout, 5xx without the handled
  status, and so on. -/
  | otherError
deriving DecidableEq, Repr

/-- Shallow embedding of `fetchHazardAlerts` (WeatherMap.jsx,
lines 221-258).  `hasCoords` is the guard `if (!lat || !lng) return`. -/
def fetchHazardAlerts (hasCoords isAuthenticated : Bool)
    (outcome : QuickFetchOutcome) (s : WMHazardState) : WMHazardState :=
  if !hasCoords then s
  else if !isAuthenticated then { s with hazardAlerts := [] }
  else
    let s1 := { s with alertsLoading := true }
    let s2 :=
      match outcome with
      | .ok alerts =>
        let severeAlerts := alerts.filter
          (fun (a : QuickAlert) => a.severity == "severe" || a.severity == "extreme")
        { s1 with
          hazardAlerts := alerts,
          lastToast := if severeAlerts.length > 0 then
              some (.severeFound severeAlerts.length)
            else s1.lastToast }
      | .http401 => { s1 with lastToast := some .loginToView, hazardAlerts := [] }
      | .http403 detail =>
        { s1 with
          lastToast := match detail with
            | some d => some (.forbiddenDetail d)
            | none => s1.lastToast,
          hazardAlerts := [] }
      | .otherError => { s1 with hazardAlerts := [] }
    { s2 with alertsLoading := false }

/-- The three shapes of the hazard-alert panel (WeatherMap.jsx,
lines 767-815): a spinner while loading, the alert list when non-empty,
otherwise the block `✅ No active alerts for this location`. -/
inductive HazardPanelView where
  | loadingView
  | alertList (alerts : List QuickAlert)
  | noActiveAlerts
deriving DecidableEq, Repr

/-- Rendering decision of the hazard-alert panel (lines 767-815). -/
def renderHazardPanel (s : WMHazardState) : HazardPanelView :=
  if s.alertsLoading then .loadingView
  else if s.hazardAlerts.length > 0 then .alertList s.hazardAlerts
  else .noActiveAlerts

/-! ### Route analysis and cancellation (part_001, `analyzeRoute`) -/

/-- Toasts issued by `analyzeRoute` and `cancelAnalysis`. -/
inductive RouteToast where
  | errLoginFirst            -- line 451
  | errSelectBothHarbors     -- line 455
  | errMustBeValidHarbors    -- line 459
  | loadingAnalysis          -- line 485
  | successComplete          -- line 531
  | cancelledByUser          -- line 547
  | timedOutMsg              -- line 552
  | serverErrorMsg           -- line 558
  | failedMsg                -- line 564
  | cancelSuccess            -- line 578
deriving DecidableEq, Repr

/-- Externally visible route-planner state touched by `analyzeRoute`
(part_001).  `abortCtrl` records whether an AbortController is stored. -/
structure RoutePlannerState where
  analyzing : Bool
  abortCtrl : Bool
  analysisResult : Option String
  lastToast : Option RouteToast
deriving DecidableEq, Repr

/-- Guard inputs of `analyzeRoute` (lines 450-462). -/
structure AnalyzeInputs where
  hasToken : Bool
  hasStartPoint : Bool
  hasEndPoint : Bool
  startValid : Bool
  endValid : Bool
deriving DecidableEq, Repr

/-- Outcome of the `/api/enhanced-routes/analyze` request.  `aborted` is the
AbortError / CanceledError raised when the caller cancels through the
AbortController signal. -/
inductive AnalyzeOutcome where
  | success (data : String)
  | aborted
  | timedOut
  | serverError (detail : Option String)
  | otherFailure (detail : Option String)
deriving DecidableEq, Repr

/-- Shallow embedding of `analyzeRoute` (part_001, lines 442-573): guards,
then `setAnalyzing(true); setAnalysisResult(null)` and controller
registration, then the request outcome, then the `finally` block
`setAnalyzing(false); setAbortController(null)`. -/
def analyzeRoute (inp : AnalyzeInputs) (outcome : AnalyzeOutcome)
    (s : RoutePlannerState) : RoutePlannerState :=
  if !inp.hasToken then { s with lastToast := some .errLoginFirst }
  else if !inp.hasStartPoint || !inp.hasEndPoint then
    { s with lastToast := some .errSelectBothHarbors }
  else if !inp.startValid || !inp.endValid then
    { s with lastToast := some .errMustBeValidHarbors }
  else
    let s1 := { s with
      analyzing := true, analysisResult := none, abortCtrl := true,
      lastToast := some .loadingAnalysis }
    let s2 :=
      match outcome with
      | .success d => { s1 with analysisResult := some d, lastToast := some .successComplete }
      | .aborted => { s1 with lastToast := some .cancelledByUser }
      | .timedOut => { s1 with lastToast := some .timedOutMsg }
      | .serverError _ => { s1 with lastToast := some .serverErrorMsg }
      | .otherFailure _ => { s1 with lastToast := some .failedMsg }
    { s2 with analyzing := false, abortCtrl := false }

/-- Shallow embedding of `cancelAnalysis` (part_001, lines 575-583): abort
the in-flight controller, toast, and reset the flags.  The abort makes
the in-flight `analyzeRoute` finish with the `aborted` outcome. -/
def cancelAnalysis (s : RoutePlannerState) : RoutePlannerState :=
  if s.abortCtrl then
    { s with lastToast := some .cancelSuccess, analyzing := false, abortCtrl := false }
  else s

/-! ### Harbor validation fail-closed path (part_001 and HarborSearch.jsx) -/

/-- Nearest-harbor info attached to a validation payload
(`validation.nearest_harbor`, part_001 lines 302-305). -/
structure NearestHarborInfo where
  name : String
  distance_km : ℚ
deriving DecidableEq, Repr

/-- Validation payload of `/api/weather/harbors/validate` as consumed by the
callers: `is_valid`, `is_land`, `message` and the optional
`nearest_harbor`. -/
structure ValidationRec where
  is_valid : Bool
  is_land : Bool
  message : String
  nearest_harbor : Option NearestHarborInfo
deriving DecidableEq, Repr

/-- Outcome of the validation request: either the payload of a successful
response, or a request failure (network error or the 15000 ms timeout),
which the source catches. -/
inductive ValidateOutcome where
  | ok (v : ValidationRec)
  | failed
deriving DecidableEq, Repr

/-- Record returned on a caught validation failure (part_001 lines 232-236
and HarborSearch.jsx lines 144-148): the fields named by the object
literal, with `nearest_harbor` absent. -/
def unableToValidateRec : ValidationRec where
  is_valid := false
  is_land := true
  message := "Unable to validate location. Please select a known harbor."
  nearest_harbor := none

/-- Shallow embedding of `validateHarborLocation` (part_001,
lines 223-238). -/
def validateHarborLocation (outcome : ValidateOutcome) : ValidationRec :=
  match outcome with
  | .ok v => v
  | .failed => unableToValidateRec

/-- Shallow embedding of `validateLocation` (HarborSearch.jsx,
lines 135-150); its body is the same request and the same caught-failure
record as `validateHarborLocation`. -/
def hsValidateLocation (outcome : ValidateOutcome) : ValidationRec :=
  match outcome with
  | .ok v => v
  | .failed => unableToValidateRec

/-- Payload of `/api/weather/harbors/nearest` as consumed by
`getNearestHarbor` (part_001, lines 251-262); a request failure or an
empty answer is `notFound` (the source returns `null`). -/
structure NearestRec where
  name : String
  lat : ℚ
  lon : ℚ
  distance_km : ℚ
deriving DecidableEq, Repr

/-- Outcome of the nearest-harbor lookup. -/
inductive NearestOutcome where
  | found (n : NearestRec)
  | notFound
deriving DecidableEq, Repr

/-- A selected start or end point of the route planner
(`{ lat, lng, type: 'harbor' }`). -/
structure SelPoint where
  lat : ℚ
  lng : ℚ
  ptype : String
deriving DecidableEq, Repr

/-- Toasts of the map click handler (part_001, lines 264-334). -/
inductive MapToast where
  | startSnapped (name : String)   -- line 280
  | endSnapped (name : String)     -- line 284
  | startResetSnapped (name : String) -- line 290
  | errCannotSelectLand            -- line 299
  | errWaterNotNearHarbor          -- line 308
  | startSet                       -- line 318
  | endSet                         -- line 322
  | startReset                     -- line 329
deriving DecidableEq, Repr

/-- Selection state of the route planner touched by the click handler. -/
structure RouteSelState where
  startPoint : Option SelPoint
  endPoint : Option SelPoint
  startValidation : Option ValidationRec
  endValidation : Option ValidationRec
  lastToast : Option MapToast
deriving DecidableEq, Repr

/-- Shallow embedding of the map click handler (part_001, lines 264-334):
validate the clicked coordinate; when invalid, try to snap to the
nearest harbor, otherwise toast an error; when valid, select the raw
coordinate as start or end point. -/
def mapClick (vo : ValidateOutcome) (no2 : NearestOutcome) (lat lng : ℚ)
    (s : RouteSelState) : RouteSelState :=
  let validation := validateHarborLocation vo
  if !validation.is_valid then
    match no2 with
    | .found n =>
      let snapped : SelPoint := { lat := n.lat, lng := n.lon, ptype := "harbor" }
      let snappedValidation := { validation with
        is_valid := true, message := "Snapped to nearest harbor: " ++ n.name }
      match s.startPoint with
      | none => { s with
          startPoint := some snapped,
          startValidation := some snappedValidation,
          lastToast := some (.startSnapped n.name) }
      | some _ =>
        match s.endPoint with
        | none => { s with
            endPoint := some snapped,
            endValidation := some snappedValidation,
            lastToast := some (.endSnapped n.name) }
        | some _ => { s with
            startPoint := some snapped,
            endPoint := none,
            startValidation := some snappedValidation,
            endValidation := none,
            lastToast := some (.startResetSnapped n.name) }
    | .notFound =>
      if validation.is_land then { s with lastToast := some .errCannotSelectLand }
      else { s with lastToast := some .errWaterNotNearHarbor }
  else
    let raw : SelPoint := { lat := lat, lng := lng, ptype := "harbor" }
    match s.startPoint with
    | none => { s with
        startPoint := some raw,
        startValidation := some validation,
        lastToast := some .startSet }
    | some _ =>
      match s.endPoint with
      | none => { s with
          endPoint := some raw,
          endValidation := some validation,
          lastToast := some .endSet }
      | some _ => { s with
          startPoint := some raw,
          endPoint := none,
          startValidation := some validation,
          endValidation := none,
          lastToast := some .startReset }

/-- Toasts of `handleLocationValidation` (HarborSearch.jsx,
lines 198-229). -/
inductive HSToast where
  | errLandNearest (name : String) (km : ℚ)  -- line 208
  | errLandNoNearby                          -- line 212
  | errWaterNotNearHarbor                    -- line 217
  | successValidHarbor                       -- line 221
deriving DecidableEq, Repr

/-- Shallow embedding of `handleLocationValidation` (HarborSearch.jsx,
lines 198-229): it stores the validation result and toasts; it never
selects a harbor (selection only happens in `handleHarborSelect`). -/
def handleLocationValidation (vo : ValidateOutcome) (no2 : NearestOutcome) :
    ValidationRec × HSToast :=
  let validation := hsValidateLocation vo
  if validation.is_land then
    match no2 with
    | .found n => (validation, .errLandNearest n.name n.distance_km)
    | .notFound => (validation, .errLandNoNearby)
  else if !validation.is_valid then (validation, .errWaterNotNearHarbor)
  else (validation, .successValidHarbor)

/-- Response facts with every test false; concrete inputs are built by
overriding single fields. -/
def blankFacts : BasicResponseFacts where
  weatherExtract := false
  routeExtract := false
  disasterListHeader := false
  safetyQueryGuard := false
  affectingDisasters := none
  explicitlyUnsafeTxt := false
  mainVerdictHeader := none
  riskLevelHigh := false
  riskLevelMedium := false
  riskLevelLow := false
  disasterKeywordsBody := false
  earthquakeWithMagnitude := false
  stormKeyword := false
  noActiveStormTxt := false
  floodKeyword := false
  noFloodTxt := false
  positiveSafetyTxt := false

/-- Safety query reporting three active disasters, together with a SAFE
header and a medium-risk indicator that the override must beat. -/
def c1input : BasicResponseFacts :=
  { blankFacts with
    safetyQueryGuard := true,
    affectingDisasters := some 3,
    mainVerdictHeader := some { icon := .iconCheck, word := .saysSafe },
    riskLevelMedium := true }

/-- Safety query with a plain MEDIUM risk level and no disaster keyword. -/
def c2input : BasicResponseFacts :=
  { blankFacts with safetyQueryGuard := true, riskLevelMedium := true }

/-- Safety query with MEDIUM risk level and a disaster keyword in the
body. -/
def c2inputHazard : BasicResponseFacts :=
  { blankFacts with
    safetyQueryGuard := true, riskLevelMedium := true, disasterKeywordsBody := true }

/-- Snapped selection built from a nearest-harbor record (part_001,
line 276): `{ lat: nearest.lat, lng: nearest.lon, type: 'harbor' }`. -/
def snapPointOf (n : NearestRec) : SelPoint :=
  { lat := n.lat, lng := n.lon, ptype := "harbor" }

/-- Weather-map state holding one severe alert, used to compare a failed
fetch against a successful empty fetch. -/
def c8state : WMHazardState :=
  { hazardAlerts :=
      [{ event := "Gale warning", severity := "severe",
         description := "High winds", advice := none, source := "met" }],
    alertsLoading := false,
    lastToast := none }

/-- Builds a high-risk-area record with the given name, position, severity
and source. -/
def mkArea (nm : String) (la lo : ℚ) (sev src : String) : Area :=
  { name := nm, lat := la, lon := lo, display_name := nm,
    severity := sev, description := "", source := src }

/-- A severe storm-family event from source A. -/
def c3stormA : Area := mkArea ("Cyclone Alpha") 10 20 ("SEVERE") ("A")

/-- An extreme earthquake-family event from source B, 0.2 degrees away. -/
def c3quakeB : Area := mkArea ("M 7.1 Earthquake") (10 + 1/5) (20 + 1/5) ("EXTREME") ("B")

/-- An EXTREME event. -/
def c4extremeArea : Area := mkArea ("Megaquake") 0 0 ("EXTREME") ("usgs")

/-- A SEVERE event far from the others. -/
def c4severeArea : Area := mkArea ("Gale") 10 10 ("SEVERE") ("noaa")

/-- An event with a severity string outside the lookup table. -/
def c4unknownArea : Area := mkArea ("Odd alert") 40 40 ("ALERT") ("misc")

/-- A SEVERE current-location record (prepended by the aggregation). -/
def c5currentSevere : Area := mkArea ("CURRENT: Jaffna") 5 5 ("SEVERE") ("Your Location")

/-- An EXTREME global record at the same coordinates as the
current-location one (distance zero, well within the 0.5-degree bound). -/
def c5globalExtreme : Area := mkArea ("Typhoon") 5 5 ("EXTREME") ("gdacs")

/-- The i-th of fifteen pairwise-distant SEVERE events. -/
def c6severe (i : Nat) : Area := mkArea ("S" ++ toString i) (i : ℚ) 0 ("SEVERE") ("global")

/-- An EXTREME event far from all fifteen SEVERE ones. -/
def c6extremeArea : Area := mkArea ("Megaquake") 100 0 ("EXTREME") ("usgs")

/-- Sixteen pairwise-distant events: fifteen SEVERE and one EXTREME. -/
def c6input : List Area := (List.range 15).map c6severe ++ [c6extremeArea]

/-- Concrete guard inputs with every guard satisfied. -/
def c9inputs : AnalyzeInputs :=
  { hasToken := true, hasStartPoint := true, hasEndPoint := true,
    startValid := true, endValid := true }

/-- Concrete planner state holding a previous analysis result. -/
def c9state : RoutePlannerState :=
  { analyzing := false, abortCtrl := false,
    analysisResult := some ("old"), lastToast := none }

/-! ## Claim theorems -/

/-- C1: on a Basic-model safety query (an input reaching the country-safety
branch), an active-disaster count greater than zero forces the UNSAFE
verdict naming that count, whatever the SAFE header, risk-level
indicators or keyword conditions say; in particular such an input never
yields either medium-risk caution verdict. -/
theorem c1_active_disasters_override (r : BasicResponseFacts) (n : Nat)
    (hw : r.weatherExtract = false) (hr : r.routeExtract = false)
    (hd : r.disasterListHeader = false) (hs : r.safetyQueryGuard = true)
    (hc : r.affectingDisasters = some n) (hn : 0 < n) :
    simplifyBasicGPTResponse true r = .verdictOut (.unsafeDisasterCount n) ∧
    renderVerdict (.unsafeDisasterCount n) =
      "❌ UNSAFE - " ++ toString n ++ " active disaster(s) affecting this location" ∧
    simplifyBasicGPTResponse true r ≠ .verdictOut .notSafeMediumHazards ∧
    simplifyBasicGPTResponse true r ≠ .verdictOut .safeMediumCaution := by
  have h1 : simplifyBasicGPTResponse true r = .verdictOut (.unsafeDisasterCount n) := by
    simp [simplifyBasicGPTResponse, hw, hr, hd, hs, hc, hn]
  refine ⟨h1, rfl, ?_, ?_⟩ <;> rw [h1] <;> simp

/-- Witness for C1 at a concrete safety query with three active disasters,
a SAFE header and a medium-risk indicator. -/
theorem c1_active_disasters_override_witness :
    simplifyBasicGPTResponse true c1input = .verdictOut (.unsafeDisasterCount 3) ∧
    renderVerdict (.unsafeDisasterCount 3) =
      "❌ UNSAFE - " ++ toString 3 ++ " active disaster(s) affecting this location" ∧
    simplifyBasicGPTResponse true c1input ≠ .verdictOut .notSafeMediumHazards ∧
    simplifyBasicGPTResponse true c1input ≠ .verdictOut .safeMediumCaution :=
  c1_active_disasters_override c1input 3 rfl rfl rfl rfl rfl (by decide)

/-- C2 counterexample: on a safety query with a plain MEDIUM risk level and
no disaster keyword, the classifier returns the verdict rendered as
`⚠️ SAFE - Medium Risk (Exercise Caution)`, whose label word is SAFE, so
the claim that neither moderate outcome is labelled SAFE fails. -/
theorem c2_counterexample :
    simplifyBasicGPTResponse true c2input = .verdictOut .safeMediumCaution ∧
    renderVerdict .safeMediumCaution = "⚠️ SAFE - Medium Risk (Exercise Caution)" ∧
    verdictLabelTok (renderVerdict .safeMediumCaution) = "SAFE" := by
  refine ⟨by decide, rfl, by decide⟩

/-- C2 amended: with moderate risk present (and no higher rule firing), a
disaster keyword yields the caution-icon verdict
`⚠️ NOT SAFE - Medium risk with active hazards` and plain moderate risk
yields the caution-icon verdict `⚠️ SAFE - Medium Risk (Exercise
Caution)`; both carry the ⚠️ icon, the latter is labelled SAFE, and the
two rationales are distinct. -/
theorem c2_moderate_risk_amended (r : BasicResponseFacts)
    (hw : r.weatherExtract = false) (hr : r.routeExtract = false)
    (hd : r.disasterListHeader = false) (hs : r.safetyQueryGuard = true)
    (hc : r.affectingDisasters = none ∨ r.affectingDisasters = some 0)
    (he : r.explicitlyUnsafeTxt = false) (hm : r.mainVerdictHeader = none)
    (hh : r.riskLevelHigh = false) (hmed : r.riskLevelMedium = true) :
    (r.disasterKeywordsBody = true →
      simplifyBasicGPTResponse true r = .verdictOut .notSafeMediumHazards) ∧
    (r.disasterKeywordsBody = false →
      simplifyBasicGPTResponse true r = .verdictOut .safeMediumCaution) ∧
    verdictIconTok (renderVerdict .notSafeMediumHazards) = "⚠️" ∧
    verdictIconTok (renderVerdict .safeMediumCaution) = "⚠️" ∧
    verdictLabelTok (renderVerdict .safeMediumCaution) = "SAFE" ∧
    renderVerdict .notSafeMediumHazards ≠ renderVerdict .safeMediumCaution := by
  refine ⟨?_, ?_, by decide, by decide, by decide, by decide⟩ <;>
    intro hk <;>
    rcases hc with hc | hc <;>
    simp [simplifyBasicGPTResponse, hw, hr, hd, hs, hc, he, hm, hh, hmed, hk]

/-- Witness for C2 amended at the two concrete moderate-risk inputs. -/
theorem c2_moderate_risk_amended_witness :
    simplifyBasicGPTResponse true c2inputHazard = .verdictOut .notSafeMediumHazards ∧
    simplifyBasicGPTResponse true c2input = .verdictOut .safeMediumCaution :=
  ⟨(c2_moderate_risk_amended c2inputHazard rfl rfl rfl rfl (Or.inl rfl) rfl rfl rfl
      rfl).1 rfl,
   (c2_moderate_risk_amended c2input rfl rfl rfl rfl (Or.inl rfl) rfl rfl rfl
      rfl).2.1 rfl⟩

/-- C8 counterexample: a total hazard-fetch failure produces exactly the
same state as a successful fetch of zero alerts — there is no
degraded-mode flag distinguishing them — and the panel shows the plain
`✅ No active alerts for this location` view. -/
theorem c8_counterexample :
    fetchHazardAlerts true true .otherError c8state
      = fetchHazardAlerts true true (.ok []) c8state ∧
    renderHazardPanel (fetchHazardAlerts true true .otherError c8state)
      = .noActiveAlerts := by
  constructor <;> rfl

/-- C8 amended: when the hazard fetch fails, the stored alert set is empty,
loading ends and no error escapes; the resulting state is identical to
that of a successful fetch returning zero alerts (so it carries no
degraded marker), and the panel renders the no-active-alerts view —
never an unsafe verdict and never a failure view. -/
theorem c8_empty_on_failure_amended (s : WMHazardState) :
    fetchHazardAlerts true true .otherError s
      = fetchHazardAlerts true true (.ok []) s ∧
    (fetchHazardAlerts true true .otherError s).hazardAlerts = [] ∧
    (fetchHazardAlerts true true .otherError s).alertsLoading = false ∧
    renderHazardPanel (fetchHazardAlerts true true .otherError s)
      = .noActiveAlerts := by
  refine ⟨rfl, rfl, rfl, rfl⟩

/-- C9: a cancelled route analysis (the request ends with the abort error)
leaves the stored analysis result empty — exactly the value set before
the run produced any output — reports only the cancellation toast, and
clears the in-flight flags. -/
theorem c9_cancelled_run_no_partial_result (inp : AnalyzeInputs)
    (s : RoutePlannerState)
    (ht : inp.hasToken = true) (hsp : inp.hasStartPoint = true)
    (hep : inp.hasEndPoint = true)
    (hsv : inp.startValid = true) (hev : inp.endValid = true) :
    (analyzeRoute inp .aborted s).analysisResult = none ∧
    (analyzeRoute inp .aborted s).lastToast = some .cancelledByUser ∧
    (analyzeRoute inp .aborted s).analyzing = false ∧
    (analyzeRoute inp .aborted s).abortCtrl = false := by
  refine ⟨?_, ?_, ?_, ?_⟩ <;> simp [analyzeRoute, ht, hsp, hep, hsv, hev]

/-- Witness for C9 at concrete guard inputs and a state holding a previous
analysis result. -/
theorem c9_cancelled_run_no_partial_result_witness :
    (analyzeRoute c9inputs .aborted c9state).analysisResult = none ∧
    (analyzeRoute c9inputs .aborted c9state).lastToast = some .cancelledByUser ∧
    (analyzeRoute c9inputs .aborted c9state).analyzing = false ∧
    (analyzeRoute c9inputs .aborted c9state).abortCtrl = false :=
  c9_cancelled_run_no_partial_result c9inputs c9state rfl rfl rfl rfl rfl

/-- C10: a failed validation request yields the fail-closed record
(`is_valid` false, `is_land` true, the human-readable message) in both
validator wrappers; the harbor-search handler then stores that record
and always follows a land-error path, never the valid-selection path;
and the map click handler never selects the raw clicked coordinate: it
either leaves both points unchanged or sets a point to the
nearest-harbor snap. -/
theorem c10_unreachable_validator_fail_closed :
    validateHarborLocation .failed = unableToValidateRec ∧
    hsValidateLocation .failed = unableToValidateRec ∧
    unableToValidateRec.is_valid = false ∧
    unableToValidateRec.is_land = true ∧
    unableToValidateRec.message
      = "Unable to validate location. Please select a known harbor." ∧
    (∀ no2 : NearestOutcome,
      (handleLocationValidation .failed no2).1 = unableToValidateRec ∧
      (handleLocationValidation .failed no2).2 ≠ .successValidHarbor) ∧
    (∀ (lat lng : ℚ) (s : RouteSelState),
      mapClick .failed .notFound lat lng s
        = { s with lastToast := some .errCannotSelectLand }) ∧
    (∀ (lat lng : ℚ) (s : RouteSelState) (n : NearestRec),
      ((mapClick .failed (.found n) lat lng s).startPoint = some (snapPointOf n) ∨
       (mapClick .failed (.found n) lat lng s).startPoint = s.startPoint) ∧
      ((mapClick .failed (.found n) lat lng s).endPoint = some (snapPointOf n) ∨
       (mapClick .failed (.found n) lat lng s).endPoint = s.endPoint ∨
       (mapClick .failed (.found n) lat lng s).endPoint = none)) := by
  refine ⟨rfl, rfl, rfl, rfl, rfl, ?_, ?_, ?_⟩
  · intro no2
    cases no2 <;>
      exact ⟨rfl, by simp [handleLocationValidation, hsValidateLocation, unableToValidateRec]⟩
  · intro lat lng s
    rfl
  · intro lat lng s n
    rcases hs : s.startPoint with _ | p
    · constructor
      · left
        simp [mapClick, validateHarborLocation, unableToValidateRec, snapPointOf, hs]
      · right; left
        simp [mapClick, validateHarborLocation, unableToValidateRec, hs]
    · rcases he : s.endPoint with _ | q
      · constructor
        · right
          simp [mapClick, validateHarborLocation, unableToValidateRec, hs, he]
        · left
          simp [mapClick, validateHarborLocation, unableToValidateRec, snapPointOf, hs, he]
      · constructor
        · left
          simp [mapClick, validateHarborLocation, unableToValidateRec, snapPointOf, hs, he]
        · right; right
          simp [mapClick, validateHarborLocation, unableToValidateRec, hs, he]

/-! ## Aggregation helper lemmas -/

/-- Every record is close to itself. -/
theorem closeTo_self (a : Area) : closeTo a a = true := by
  simp [closeTo]

/-- The proximity test is symmetric. -/
theorem closeTo_comm (a b : Area) : closeTo a b = closeTo b a := by
  simp [closeTo, abs_sub_comm]

/-- Records half a degree or more apart in latitude are not close. -/
theorem closeTo_false_of_lat (a b : Area) (h : (1 : ℚ)/2 ≤ |a.lat - b.lat|) :
    closeTo a b = false := by
  have hnot : ¬ (|a.lat - b.lat| < (1 : ℚ)/2) := not_lt.mpr h
  simp [closeTo]
  intro hlt
  exact absurd (by rwa [← one_div] at hlt) hnot

/-- Duplicate removal never alters a surviving record and never reorders:
the result is a sublist of the input. -/
theorem dedupAreas_sublist (l : List Area) : (dedupAreas l).Sublist l := by
  have h := (List.filter_sublist
    (l := l.enum)
    (p := fun p => l.findIdx (fun a => closeTo a p.snd) == p.fst)).map Prod.snd
  rw [List.enum_map_snd] at h
  exact h

/-- An index holding an element satisfying the predicate bounds
`findIdx` from above. -/
theorem findIdx_le_of_get? {α : Type} (p : α → Bool) :
    ∀ (l : List α) (k : Nat) (x : α), l.get? k = some x → p x = true →
      l.findIdx p ≤ k := by
  intro l
  induction l with
  | nil => intro k x h; simp at h
  | cons hd tl ih =>
    intro k x hget hp
    cases k with
    | zero =>
      injection hget with h
      subst h
      simp [List.findIdx_cons, hp]
    | succ k =>
      rw [List.findIdx_cons]
      cases hph : p hd with
      | true => simp
      | false =>
        simp only [cond_false]
        have := ih k x hget hp
        omega

/-- Characterization of `findIdx`: it returns the index of an element
satisfying the predicate when every earlier element fails it. -/
theorem findIdx_eq_of_get? {α : Type} (p : α → Bool) :
    ∀ (l : List α) (i : Nat) (x : α), l.get? i = some x → p x = true →
      (∀ j y, j < i → l.get? j = some y → p y = false) → l.findIdx p = i := by
  intro l
  induction l with
  | nil => intro i x h; simp at h
  | cons hd tl ih =>
    intro i x hget hp hb
    cases i with
    | zero =>
      injection hget with h
      subst h
      simp [List.findIdx_cons, hp]
    | succ i =>
      have hhd : p hd = false := hb 0 hd (Nat.succ_pos i) rfl
      rw [List.findIdx_cons, hhd]
      simp only [cond_false]
      have := ih i x hget hp (fun j y hj hy => hb (j + 1) y (by omega) hy)
      omega

/-- Every survivor of the duplicate filter occurs in the input at the index
returned by the close-record search. -/
theorem mem_dedupAreas_ex {x : Area} {l : List Area} (hx : x ∈ dedupAreas l) :
    ∃ i, l.get? i = some x ∧ l.findIdx (fun a => closeTo a x) = i := by
  unfold dedupAreas at hx
  obtain ⟨pr, hpr, hsnd⟩ := List.mem_map.mp hx
  obtain ⟨hpre, hpred⟩ := List.mem_filter.mp hpr
  subst hsnd
  refine ⟨pr.1, List.mem_enum_iff_get?.mp hpre, ?_⟩
  simpa using hpred

/-- Survivors of the duplicate filter are pairwise not close. -/
theorem pairwise_far_dedupAreas (l : List Area) :
    List.Pairwise (fun a b => closeTo a b = false) (dedupAreas l) := by
  have h0 : List.Pairwise (fun p q : Nat × Area => p.1 < q.1) l.enum := by
    have h1 := List.pairwise_lt_range l.length
    rw [← List.enum_map_fst l] at h1
    exact List.pairwise_map.mp h1
  have h2 := h0.filter (fun p => l.findIdx (fun a => closeTo a p.snd) == p.fst)
  have h3 : List.Pairwise (fun p q : Nat × Area => closeTo p.2 q.2 = false)
      (l.enum.filter (fun p => l.findIdx (fun a => closeTo a p.snd) == p.fst)) := by
    refine List.Pairwise.imp_of_mem ?_ h2
    intro p q hp hq hlt
    have hq2 := List.mem_filter.mp hq
    have hp2 := List.mem_filter.mp hp
    have hpe : l.get? p.1 = some p.2 := List.mem_enum_iff_get?.mp hp2.1
    have hpredq : l.findIdx (fun a => closeTo a q.2) = q.1 := by simpa using hq2.2
    cases hcc : closeTo p.2 q.2 with
    | false => rfl
    | true =>
      have hle := findIdx_le_of_get? (fun a => closeTo a q.2) l p.1 p.2 hpe hcc
      rw [hpredq] at hle
      omega
  unfold dedupAreas
  exact List.pairwise_map.mpr h3

/-- On a list whose members are pairwise not close, the duplicate filter
keeps everything. -/
theorem dedupAreas_eq_self {l : List Area}
    (h : List.Pairwise (fun a b => closeTo a b = false) l) : dedupAreas l = l := by
  unfold dedupAreas
  have hall : ∀ pr ∈ l.enum,
      (l.findIdx (fun a => closeTo a pr.snd) == pr.fst) = true := by
    intro pr hpr
    have hget : l.get? pr.1 = some pr.2 := List.mem_enum_iff_get?.mp hpr
    rw [beq_iff_eq]
    refine findIdx_eq_of_get? _ l pr.1 pr.2 hget (closeTo_self pr.2) ?_
    intro j y hj hy
    obtain ⟨hjlen, hjget⟩ := List.get?_eq_some.mp hy
    obtain ⟨hplen, hpget⟩ := List.get?_eq_some.mp hget
    have hpair := List.pairwise_iff_get.mp h ⟨j, hjlen⟩ ⟨pr.1, hplen⟩ hj
    rw [hjget, hpget] at hpair
    exact hpair
  rw [List.filter_eq_self.mpr hall, List.enum_map_snd]

/-- Duplicate removal of a two-element list: the second element is dropped
exactly when it is close to the first, and the first always survives
unchanged. -/
theorem dedupAreas_pair (a b : Area) :
    dedupAreas [a, b] = if closeTo a b = true then [a] else [a, b] := by
  have henum : ([a, b] : List Area).enum = [(0, a), (1, b)] := rfl
  cases h : closeTo a b <;>
    simp [dedupAreas, henum, List.findIdx_cons, closeTo_self, h]

/-- Insertion produces a permutation of consing. -/
theorem insertByRank_perm (x : Area) (l : List Area) :
    (insertByRank x l).Perm (x :: l) := by
  induction l with
  | nil => exact List.Perm.refl _
  | cons y ys ih =>
    unfold insertByRank
    by_cases h : rankArea y < rankArea x
    · rw [if_pos h]
      exact (ih.cons y).trans (List.Perm.swap x y ys)
    · rw [if_neg h]

/-- The stable sort permutes its input. -/
theorem sortAreas_perm (l : List Area) : (sortAreas l).Perm l := by
  induction l with
  | nil => exact List.Perm.refl _
  | cons x xs ih =>
    exact (insertByRank_perm x (sortAreas xs)).trans (ih.cons x)

/-- Membership in an insertion. -/
theorem mem_insertByRank {a x : Area} {l : List Area} :
    a ∈ insertByRank x l ↔ a = x ∨ a ∈ l := by
  rw [(insertByRank_perm x l).mem_iff]
  simp

/-- Insertion preserves ascending comparator order. -/
theorem sorted_insertByRank (x : Area) :
    ∀ {l : List Area}, List.Pairwise (fun a b => rankArea a ≤ rankArea b) l →
      List.Pairwise (fun a b => rankArea a ≤ rankArea b) (insertByRank x l) := by
  intro l
  induction l with
  | nil =>
    intro _
    simp [insertByRank]
  | cons y ys ih =>
    intro h
    obtain ⟨hy, hys⟩ := List.pairwise_cons.mp h
    unfold insertByRank
    by_cases hr : rankArea y < rankArea x
    · rw [if_pos hr]
      refine List.pairwise_cons.mpr ⟨?_, ih hys⟩
      intro z hz
      rcases mem_insertByRank.mp hz with rfl | hz2
      · exact le_of_lt hr
      · exact hy z hz2
    · rw [if_neg hr]
      refine List.pairwise_cons.mpr ⟨?_, h⟩
      intro z hz
      rcases List.mem_cons.mp hz with rfl | hz2
      · exact not_lt.mp hr
      · exact le_trans (not_lt.mp hr) (hy z hz2)

/-- The stable sort is sorted ascending by the comparator key. -/
theorem sortAreas_sorted (l : List Area) :
    List.Pairwise (fun a b => rankArea a ≤ rankArea b) (sortAreas l) := by
  induction l with
  | nil => exact List.Pairwise.nil
  | cons x xs ih => exact sorted_insertByRank x ih

/-- Sorting an already sorted list returns it unchanged. -/
theorem sortAreas_eq_self_of_sorted :
    ∀ {l : List Area}, List.Pairwise (fun a b => rankArea a ≤ rankArea b) l →
      sortAreas l = l := by
  intro l
  induction l with
  | nil => intro _; rfl
  | cons x xs ih =>
    intro h
    obtain ⟨hx, hxs⟩ := List.pairwise_cons.mp h
    show insertByRank x (sortAreas xs) = x :: xs
    rw [ih hxs]
    cases xs with
    | nil => rfl
    | cons y ys =>
      have hr : ¬ (rankArea y < rankArea x) :=
        not_lt.mpr (hx y (List.mem_cons_self y ys))
      simp [insertByRank, hr]

/-- Relabelling the source of every record. -/
theorem closeTo_relabel (g : Area → String) (a b : Area) :
    closeTo { a with source := g a } { b with source := g b } = closeTo a b := rfl

/-- Relabelling preserves the comparator key. -/
theorem rankArea_relabel (g : Area → String) (a : Area) :
    rankArea { a with source := g a } = rankArea a := rfl

/-- `findIdx` over a mapped list searches the composed predicate. -/
theorem findIdx_map_eq {α β : Type} (f : α → β) (p : β → Bool) :
    ∀ l : List α, (l.map f).findIdx p = l.findIdx (fun a => p (f a)) := by
  intro l
  induction l with
  | nil => rfl
  | cons hd tl ih => simp [List.findIdx_cons, ih]

/-- Filtering a mapped list is mapping the filtered list. -/
theorem filter_map_comm {α β : Type} (f : α → β) (p : β → Bool) :
    ∀ l : List α, (l.map f).filter p = (l.filter (fun a => p (f a))).map f := by
  intro l
  induction l with
  | nil => rfl
  | cons hd tl ih =>
    simp only [List.map_cons, List.filter_cons]
    cases hp : p (f hd) <;> simp [hp, ih]

/-- Duplicate removal commutes with source relabelling, because the
proximity test only reads latitude and longitude. -/
theorem dedupAreas_relabel (g : Area → String) (l : List Area) :
    dedupAreas (relabelSources g l)
      = (dedupAreas l).map (fun a => { a with source := g a }) := by
  unfold dedupAreas relabelSources
  rw [List.enum_map, filter_map_comm, List.map_map]
  have hsnd : (Prod.snd ∘ Prod.map (@id ℕ) (fun a : Area => { a with source := g a }))
      = (fun a : Area => { a with source := g a }) ∘ Prod.snd := rfl
  rw [hsnd, ← List.map_map]
  refine congrArg _ (congrArg _ ?_)
  apply List.filter_congr
  intro pr hpr
  obtain ⟨i, x⟩ := pr
  show ((l.map (fun a : Area => { a with source := g a })).findIdx
      (fun a => closeTo a { x with source := g x }) == i)
    = (l.findIdx (fun a => closeTo a x) == i)
  rw [findIdx_map_eq]
  rfl

/-- Insertion commutes with source relabelling. -/
theorem insertByRank_relabel (g : Area → String) (x : Area) :
    ∀ l : List Area,
      insertByRank { x with source := g x } (l.map (fun a => { a with source := g a }))
        = (insertByRank x l).map (fun a => { a with source := g a }) := by
  intro l
  induction l with
  | nil => rfl
  | cons y ys ih =>
    simp only [List.map_cons]
    unfold insertByRank
    rw [rankArea_relabel g y, rankArea_relabel g x]
    by_cases h : rankArea y < rankArea x
    · rw [if_pos h, if_pos h, ih]
      simp
    · rw [if_neg h, if_neg h]
      simp

/-- Sorting commutes with source relabelling, because the comparator key
only reads the severity field. -/
theorem sortAreas_relabel (g : Area → String) :
    ∀ l : List Area,
      sortAreas (l.map (fun a => { a with source := g a }))
        = (sortAreas l).map (fun a => { a with source := g a }) := by
  intro l
  induction l with
  | nil => rfl
  | cons x xs ih =>
    show insertByRank { x with source := g x } (sortAreas (xs.map _)) = _
    rw [ih, insertByRank_relabel]
    rfl

/-- The whole pipeline commutes with source relabelling. -/
theorem pipelineAreas_relabel (g : Area → String) (l : List Area) :
    pipelineAreas (relabelSources g l)
      = (pipelineAreas l).map (fun a => { a with source := g a }) := by
  unfold pipelineAreas
  rw [dedupAreas_relabel, sortAreas_relabel, List.map_take]

/-- The pipeline is idempotent: its output is pairwise distant, sorted and
within the cap, so a second pass changes nothing. -/
theorem pipelineAreas_idem (l : List Area) :
    pipelineAreas (pipelineAreas l) = pipelineAreas l := by
  have hsymm : ∀ {a b : Area}, closeTo a b = false → closeTo b a = false := by
    intro a b hab
    rw [closeTo_comm]
    exact hab
  have hfar := pairwise_far_dedupAreas l
  have hfar2 : List.Pairwise (fun a b => closeTo a b = false)
      (sortAreas (dedupAreas l)) :=
    (List.Perm.pairwise_iff hsymm (sortAreas_perm (dedupAreas l))).mpr hfar
  have hfar3 : List.Pairwise (fun a b => closeTo a b = false) (pipelineAreas l) :=
    List.Pairwise.sublist (List.take_sublist 15 _) hfar2
  have hsorted : List.Pairwise (fun a b => rankArea a ≤ rankArea b)
      (sortAreas (dedupAreas l)) := sortAreas_sorted _
  have hsorted2 : List.Pairwise (fun a b => rankArea a ≤ rankArea b)
      (pipelineAreas l) := List.Pairwise.sublist (List.take_sublist 15 _) hsorted
  have hlen : (pipelineAreas l).length ≤ 15 := by
    unfold pipelineAreas
    rw [List.length_take]
    exact min_le_left _ _
  calc pipelineAreas (pipelineAreas l)
      = (sortAreas (dedupAreas (pipelineAreas l))).take 15 := rfl
    _ = (sortAreas (pipelineAreas l)).take 15 := by rw [dedupAreas_eq_self hfar3]
    _ = (pipelineAreas l).take 15 := by rw [sortAreas_eq_self_of_sorted hsorted2]
    _ = pipelineAreas l := List.take_of_length_le hlen

/-- The two C5 records are close (they share coordinates). -/
theorem closeTo_c5 : closeTo c5currentSevere c5globalExtreme = true := by
  norm_num [closeTo, c5currentSevere, c5globalExtreme, mkArea]

/-- C3 counterexample: two events of different hazard families and
different sources, 0.2 degrees apart, are merged by the duplicate
filter, and the survivor is the first record unchanged: it keeps
severity SEVERE even though the dropped record was EXTREME, and keeps
the single source attribution A. -/
theorem c3_counterexample :
    dedupAreas [c3stormA, c3quakeB] = [c3stormA] ∧
    c3stormA.severity = "SEVERE" ∧ c3quakeB.severity = "EXTREME" ∧
    c3stormA.source = "A" ∧ c3quakeB.source = "B" := by
  have hc : closeTo c3stormA c3quakeB = true := by
    norm_num [closeTo, c3stormA, c3quakeB, mkArea, abs_sub_lt_iff, abs_lt]
  exact ⟨by rw [dedupAreas_pair, if_pos hc], rfl, rfl, rfl, rfl⟩

/-- C3 amended: the duplicate filter merges two events exactly when their
centers are within 0.5 degrees in both latitude and longitude — no type
compatibility is consulted — and the surviving record is the earlier
one, unchanged: no severity maximum and no source concatenation is
computed, since the survivors always form a sublist of the input. -/
theorem c3_dedup_amended (l : List Area) (a b : Area) :
    (dedupAreas l).Sublist l ∧
    dedupAreas [a, b] = if closeTo a b = true then [a] else [a, b] :=
  ⟨dedupAreas_sublist l, dedupAreas_pair a b⟩

/-- C4 code evaluation: the comparator key of the severity sort maps
EXTREME to 99 (the table value 0 is falsy in JavaScript, so the default
99 is used) and unknown severities to 99 as well, so SEVERE events sort
ahead of EXTREME ones and an unknown-severity event stays ahead of an
EXTREME one. -/
theorem c4_severity_sort_code_evaluation :
    rankArea c4extremeArea = 99 ∧ rankArea c4severeArea = 1 ∧
    rankArea c4unknownArea = 99 ∧
    sortAreas [c4extremeArea, c4severeArea] = [c4severeArea, c4extremeArea] ∧
    sortAreas [c4unknownArea, c4extremeArea] = [c4unknownArea, c4extremeArea] := by
  refine ⟨by decide, by decide, by decide, by decide, by decide⟩

/-- C5 counterexample: a SEVERE current-location record placed ahead of an
EXTREME global record within the proximity bound survives deduplication
while the higher-severity global record is dropped, so the
current-location event is preferred by position, not by severity. -/
theorem c5_counterexample :
    aggregateHighRiskAreas [c5currentSevere] [c5globalExtreme] = [c5currentSevere] ∧
    c5currentSevere.severity = "SEVERE" ∧
    c5globalExtreme.severity = "EXTREME" := by
  refine ⟨?_, rfl, rfl⟩
  show (sortAreas (dedupAreas [c5currentSevere, c5globalExtreme])).take 15
    = [c5currentSevere]
  rw [dedupAreas_pair, if_pos closeTo_c5]
  rfl

/-- C5 amended: the current-location and global lists do flow through one
shared pipeline over their concatenation, but the current-location
records come first and deduplication keeps the first of any close pair,
so a global event within the proximity bound of some current-location
event is always dropped, whatever the severities of the two are. -/
theorem c5_no_privilege_amended (cl gl : List Area) (c g2 : Area)
    (hc : c ∈ cl) (hg : g2 ∈ gl) (hgn : g2 ∉ cl)
    (hclose : closeTo c g2 = true) :
    g2 ∉ aggregateHighRiskAreas cl gl := by
  intro hmem
  have hmem2 : g2 ∈ (sortAreas (dedupAreas (cl ++ gl))).take 15 := hmem
  have h1 : g2 ∈ sortAreas (dedupAreas (cl ++ gl)) :=
    (List.take_sublist 15 _).subset hmem2
  have h2 : g2 ∈ dedupAreas (cl ++ gl) := (sortAreas_perm _).subset h1
  obtain ⟨i, hgeti, hfidx⟩ := mem_dedupAreas_ex h2
  obtain ⟨k, hk⟩ := List.get?_of_mem hc
  have hklen : k < cl.length := (List.get?_eq_some.mp hk).1
  have hkapp : (cl ++ gl).get? k = some c := by
    rw [List.get?_append hklen]
    exact hk
  have hle := findIdx_le_of_get? (fun a => closeTo a g2) (cl ++ gl) k c hkapp hclose
  have hi : cl.length ≤ i := by
    by_contra hcon
    push_neg at hcon
    have hgi : cl.get? i = some g2 := by
      rw [← List.get?_append hcon]
      exact hgeti
    exact hgn (List.get?_mem hgi)
  omega

/-- Witness for C5 amended at the concrete one-element lists. -/
theorem c5_no_privilege_amended_witness :
    c5globalExtreme ∉ aggregateHighRiskAreas [c5currentSevere] [c5globalExtreme] :=
  c5_no_privilege_amended [c5currentSevere] [c5globalExtreme]
    c5currentSevere c5globalExtreme (by simp) (by simp) (by decide) closeTo_c5

/-- C6 code evaluation: with fifteen pairwise-distant SEVERE events and one
EXTREME event, the EXTREME event is sorted last (its comparator key is
99 by the falsy-zero slip) and the cap of 15 then excludes it while
every lower-tier SEVERE event is included, even though truncation does
come after deduplication and sorting. -/
theorem c6_truncation_code_evaluation :
    pipelineAreas c6input = (List.range 15).map c6severe ∧
    c6extremeArea ∉ pipelineAreas c6input ∧
    c6severe 0 ∈ pipelineAreas c6input := by
  have hfar : List.Pairwise (fun a b => closeTo a b = false) c6input := by
    unfold c6input
    rw [List.pairwise_append]
    refine ⟨?_, List.pairwise_singleton _ _, ?_⟩
    · rw [List.pairwise_map]
      refine (List.pairwise_lt_range 15).imp_of_mem ?_
      intro i j hi hj hij
      apply closeTo_false_of_lat
      show (1 : ℚ)/2 ≤ |(i : ℚ) - (j : ℚ)|
      have h1 : (i : ℚ) + 1 ≤ (j : ℚ) := by exact_mod_cast hij
      rw [abs_sub_comm, abs_of_nonneg (by linarith)]
      linarith
    · intro a ha b hb
      obtain ⟨i, hi, rfl⟩ := List.mem_map.mp ha
      rw [List.mem_singleton] at hb
      subst hb
      apply closeTo_false_of_lat
      show (1 : ℚ)/2 ≤ |(i : ℚ) - (100 : ℚ)|
      have hi15 : i < 15 := List.mem_range.mp hi
      have h1 : (i : ℚ) ≤ 14 := by exact_mod_cast Nat.lt_succ_iff.mp hi15
      rw [abs_sub_comm, abs_of_nonneg (by linarith)]
      linarith
  have hd : dedupAreas c6input = c6input := dedupAreas_eq_self hfar
  have h1 : pipelineAreas c6input = (List.range 15).map c6severe := by
    show (sortAreas (dedupAreas c6input)).take 15 = _
    rw [hd]
    decide
  refine ⟨h1, ?_, ?_⟩ <;> rw [h1] <;> decide

/-- C7: the aggregation pipeline is insensitive to source attribution —
relabelling every source leaves the deduplicated count, the result
length and the top event (compared with sources erased) unchanged —
and the pipeline is idempotent: feeding its own output back yields the
same output. -/
theorem c7_source_invariance_and_idempotence (l : List Area) (g : Area → String) :
    (dedupAreas (relabelSources g l)).length = (dedupAreas l).length ∧
    (pipelineAreas (relabelSources g l)).length = (pipelineAreas l).length ∧
    ((pipelineAreas (relabelSources g l)).head?).map scrubSource
      = ((pipelineAreas l).head?).map scrubSource ∧
    pipelineAreas (pipelineAreas l) = pipelineAreas l := by
  refine ⟨?_, ?_, ?_, pipelineAreas_idem l⟩
  · rw [dedupAreas_relabel, List.length_map]
  · rw [pipelineAreas_relabel, List.length_map]
  · rw [pipelineAreas_relabel, List.head?_map]
    cases (pipelineAreas l).head? with
    | none => rfl
    | some a => rfl
